import Mathlib

/-!
Verification of the OptionPricerPro core pipeline (calculator/models.py).

The pipeline is shallowly embedded:
* dates are day numbers (days since 1970-01-01), produced from civil
  year/month/day triples by `daysFromCivil`;
* the pandas `CustomBusinessDay` shift `target - 3 * us_bd` is embedded as
  `busdayOffsetBack`, following the numpy `busday_offset` semantics used by
  pandas for a negative offset: first roll an invalid date forward to the next
  business day, then step back one business day at a time;
* timestamps are whole seconds, so the Python `timedelta.days` floor
  truncation is `Int.fdiv _ 86400`;
* float arithmetic is modelled over `ℚ`, with the transcendental library
  functions (`math.log`, `math.sqrt`, `math.exp`, `scipy.stats.norm.cdf`)
  abstracted as fields of a `MathLib` record, and the Python exceptions they
  raise modelled by explicit domain checks returning `Except`;
* each distinct `raise` site of the source is one constructor of `PyError`.
-/

deriving instance DecidableEq for Except

namespace OptionPricer

/-- Failure modes of the pricing pipeline. `zeroDivision` and `mathDomain`
are the raw Python exceptions raised by arithmetic and by `math.log` or
`math.sqrt`; the remaining constructors are the explicit `raise ValueError`
sites of `calculator/models.py`. -/
inductive PyError where
  | zeroDivision : PyError
  | mathDomain : PyError
  | noMarketData : PyError
  | expiredInvalid : PyError
  | unknownUnderlying : String → PyError
  | unknownOptionType : String → PyError
deriving DecidableEq, Repr

/-- A civil date, as stored in a Django `DateField`: year, month, day.
Delivery months are such dates (normalized to day 1 by the ingestor). -/
structure Date where
  year : Int
  month : Int
  day : Int
deriving DecidableEq, Repr

/-- Day number of a civil date, counted from 1970-01-01 (the Hinnant
days-from-civil algorithm, the arithmetic behind `pd.Timestamp`). -/
def daysFromCivil (y m d : Int) : Int :=
  let y2 := if m ≤ 2 then y - 1 else y
  let era := Int.fdiv y2 400
  let yoe := y2 - era * 400
  let mp := Int.emod (m + 9) 12
  let doy := Int.fdiv (153 * mp + 2) 5 + d - 1
  let doe := yoe * 365 + Int.fdiv yoe 4 - Int.fdiv yoe 100 + doy
  era * 146097 + doe - 719468

/-- Day of week of a day number, Python convention: 0 = Monday .. 6 = Sunday
(1970-01-01 was a Thursday). -/
def weekday (z : Int) : Int :=
  Int.emod (z + 3) 7

/-- Business day test of the calendar: a weekday that is not in the supplied
holiday set (the source instantiates the set with the US federal holidays). -/
def isBusDay (holidays : List Int) (z : Int) : Bool :=
  decide (weekday z < 5) && !(holidays.contains z)

/-- Fuel-driven forward scan for the next business day at or after `z`. -/
def scanForward (holidays : List Int) : Nat → Int → Int
  | 0, z => z
  | n + 1, z => if isBusDay holidays z then z else scanForward holidays n (z + 1)

/-- Fuel-driven backward scan for the last business day at or before `z`. -/
def scanBackward (holidays : List Int) : Nat → Int → Int
  | 0, z => z
  | n + 1, z => if isBusDay holidays z then z else scanBackward holidays n (z - 1)

/-- Fuel sufficient to meet a business day: any window of `7 * (k + 2)`
consecutive days with at most `k` holidays contains a weekday that is not a
holiday. -/
def busFuel (holidays : List Int) : Nat :=
  7 * (holidays.length + 2)

/-- The numpy roll rule `forward`: the next business day at or after `z`. -/
def rollForward (holidays : List Int) (z : Int) : Int :=
  scanForward holidays (busFuel holidays) z

/-- The business day strictly before `z`. -/
def prevBusDay (holidays : List Int) (z : Int) : Int :=
  scanBackward holidays (busFuel holidays) (z - 1)

/-- Iterate `prevBusDay`. -/
def stepPrev (holidays : List Int) : Nat → Int → Int
  | 0, z => z
  | n + 1, z => stepPrev holidays n (prevBusDay holidays z)

/-- `np.busday_offset z (-n) roll=forward`, the semantics of the pandas
expression `target_date - n * us_bd` in `calculator/models.py`: roll an
invalid start date forward to the next business day, then step back `n`
business days. -/
def busdayOffsetBack (holidays : List Int) (z : Int) (n : Nat) : Int :=
  stepPrev holidays n (rollForward holidays z)

/-- `Option.calculate_oil_expiry`: target the 25th of the month preceding the
delivery month (January wraps to December of the previous year), then shift 3
business days backward. Returns a day number. -/
def calculate_oil_expiry (holidays : List Int) (dm : Date) : Int :=
  let expiry_month := if dm.month = 1 then 12 else dm.month - 1
  let expiry_year := if dm.month = 1 then dm.year - 1 else dm.year
  let target_date := daysFromCivil expiry_year expiry_month 25
  busdayOffsetBack holidays target_date 3

/-- `Option.calculate_gas_expiry`: target the 1st of the delivery month, then
shift 3 business days backward. Returns a day number. -/
def calculate_gas_expiry (holidays : List Int) (dm : Date) : Int :=
  let target_date := daysFromCivil dm.year dm.month 1
  busdayOffsetBack holidays target_date 3

/-- The tail of `Option.time_to_expiration` (lines 160-168 of models.py):
`delta = expiry_date - pd.Timestamp.now()`, `delta.days / 365.0`, and the
positivity check. Timestamps are in whole seconds; `Int.fdiv _ 86400` is the
floor truncation performed by `timedelta.days`. -/
def timeToExpiration (expiry now : Int) : Except PyError ℚ :=
  let days : Int := Int.fdiv (expiry - now) 86400
  let t : ℚ := (days : ℚ) / 365
  if t ≤ 0 then .error .expiredInvalid else .ok t

/-- `Option.time_to_expiration`: dispatch on the name of the underlying future,
compute the expiry day via the matching rule, then convert the timestamp
difference to a year fraction. `now` is the wall-clock sample that the source
reads internally via `pd.Timestamp.now()`; the expiry timestamp sits at
midnight of the expiry day. -/
def time_to_expiration (holidays : List Int) (name : String) (dm : Date)
    (now : Int) : Except PyError ℚ :=
  if name = "Crude Oil" then
    timeToExpiration (86400 * calculate_oil_expiry holidays dm) now
  else if name = "Natural Gas" then
    timeToExpiration (86400 * calculate_gas_expiry holidays dm) now
  else
    .error (.unknownUnderlying name)

/-- The float library functions imported by models.py, abstracted: `math.log`,
`math.sqrt`, `math.exp` and `scipy.stats.norm.cdf`. Their domain checks (the
exceptions Python raises) are modelled separately. -/
structure MathLib where
  log : ℚ → ℚ
  sqrt : ℚ → ℚ
  exp : ℚ → ℚ
  normCdf : ℚ → ℚ

/-- Python division: raises `ZeroDivisionError` on a zero denominator. -/
def pydiv (x y : ℚ) : Except PyError ℚ :=
  if y = 0 then .error .zeroDivision else .ok (x / y)

/-- Python `math.log`: raises a math domain error on a non-positive argument. -/
def pylog (m : MathLib) (x : ℚ) : Except PyError ℚ :=
  if x ≤ 0 then .error .mathDomain else .ok (m.log x)

/-- Python `math.sqrt`: raises a math domain error on a negative argument. -/
def pysqrt (m : MathLib) (x : ℚ) : Except PyError ℚ :=
  if x < 0 then .error .mathDomain else .ok (m.sqrt x)

/-- Sequencing of fallible Python expressions: an exception propagates, a
value flows into the rest of the computation. -/
def ebind (x : Except PyError ℚ) (f : ℚ → Except PyError ℚ) : Except PyError ℚ :=
  match x with
  | .error e => .error e
  | .ok a => f a

/-- The Black-76 formula block of `Option.calculate_option_price`
(lines 191-203 of models.py), with the evaluation order of the Python
expressions: `F / K`, `math.log`, `math.sqrt(T)`, the division by
`sigma * sqrt(T)`, then the dispatch on the option type. -/
def black76 (m : MathLib) (optionType : String) (F K T r sigma : ℚ) :
    Except PyError ℚ :=
  ebind (pydiv F K) fun ratio =>
  ebind (pylog m ratio) fun lg =>
  ebind (pysqrt m T) fun sq =>
  ebind (pydiv (lg + (1/2 * sigma ^ 2) * T) (sigma * sq)) fun d1 =>
  let d2 := d1 - sigma * sq
  if optionType = "CALL" then
    .ok (m.exp (-r * T) * (F * m.normCdf d1 - K * m.normCdf d2))
  else if optionType = "PUT" then
    .ok (m.exp (-r * T) * (K * m.normCdf (-d2) - F * m.normCdf (-d1)))
  else
    .error (.unknownOptionType optionType)

/-- A row of the `MarketData` model: daily settlement data for the underlying
futures contracts. -/
structure Quote where
  settlement_date : Int
  product_name : String
  delivery_month : Date
  futures_price : ℚ
deriving DecidableEq, Repr

/-- The filter predicate of the market-data lookup: exact match on product
name and on the stored delivery-month date. -/
def quoteMatches (name : String) (dm : Date) (q : Quote) : Bool :=
  q.product_name = name && q.delivery_month = dm

/-- One step of the maximum-settlement-date selection. -/
def pickLatest (acc : Option Quote) (q : Quote) : Option Quote :=
  match acc with
  | none => some q
  | some b => if b.settlement_date < q.settlement_date then some q else some b

/-- The queryset chain of filter, descending order by settlement date, and
first, from `calculate_option_price`: among the matching quotes, one with the most recent settlement
date (the first seen, on ties). -/
def latestQuote (store : List Quote) (name : String) (dm : Date) :
    Option Quote :=
  (store.filter (quoteMatches name dm)).foldl pickLatest none

/-- The fields of the `Option` model that `calculate_option_price` reads. -/
structure OptionSpec where
  option_type : String
  underlying_future : String
  delivery_month : Date
  strike_price : ℚ
deriving DecidableEq, Repr

/-- `Option.calculate_option_price`: look up the latest quote, take its
futures price as the forward `F`, the strike of the option as `K`, the
time-to-expiration property as `T`, the hard-coded constants `r = 0.05` and
`sigma = 0.20`, and evaluate the Black-76 block. -/
def calculate_option_price (m : MathLib) (holidays : List Int)
    (store : List Quote) (opt : OptionSpec) (now : Int) : Except PyError ℚ :=
  match latestQuote store opt.underlying_future opt.delivery_month with
  | none => .error .noMarketData
  | some md =>
    let F := md.futures_price
    let K := opt.strike_price
    match time_to_expiration holidays opt.underlying_future opt.delivery_month now with
    | .error e => .error e
    | .ok T => black76 m opt.option_type F K T (1/20) (1/5)

/-- Modelled from the spec: the configurable Pricing Orchestrator of
section 4.5, which the source does not implement as such (the source bakes
the rate and the volatility in as local constants). Steps, as the spec lists
them: look up the latest quote for the instrument and delivery month (fail
with `NoMarketData` if none), compute the year fraction relative to `now`
through the expiry policy, then invoke the pricer with the forward price of
the quote, the strike of the spec, and the supplied risk-free rate and volatility. -/
def priceOption_conf (m : MathLib) (r sigma : ℚ) (holidays : List Int)
    (store : List Quote) (opt : OptionSpec) (now : Int) : Except PyError ℚ :=
  match latestQuote store opt.underlying_future opt.delivery_month with
  | none => .error .noMarketData
  | some md =>
    ebind (time_to_expiration holidays opt.underlying_future opt.delivery_month now)
      fun T => black76 m opt.option_type md.futures_price opt.strike_price T r sigma

/-- A concrete instantiation of the library functions, for witnesses. -/
def mathId : MathLib :=
  { log := fun x => x, sqrt := fun x => x, exp := fun x => x,
    normCdf := fun x => x }

/-- A concrete instantiation whose cumulative distribution function is the
constant 1/2 (symmetric, as the standard normal CDF is at 0). -/
def mathHalf : MathLib :=
  { log := fun _ => 0, sqrt := fun _ => 1, exp := fun x => x,
    normCdf := fun _ => 1/2 }

/-- A concrete market-data row for witnesses. -/
def qW1 : Quote :=
  { settlement_date := 5, product_name := "Natural Gas",
    delivery_month := ⟨2025, 3, 1⟩, futures_price := 100 }

/-- A later settlement of the same contract, for witnesses. -/
def qW2 : Quote :=
  { settlement_date := 7, product_name := "Natural Gas",
    delivery_month := ⟨2025, 3, 1⟩, futures_price := 101 }

/-- A concrete option specification for witnesses. -/
def optW : OptionSpec :=
  { option_type := "CALL", underlying_future := "Natural Gas",
    delivery_month := ⟨2025, 3, 1⟩, strike_price := 80 }

@[simp] theorem ebind_ok (a : ℚ) (f : ℚ → Except PyError ℚ) :
    ebind (.ok a) f = f a := rfl

@[simp] theorem ebind_error (e : PyError) (f : ℚ → Except PyError ℚ) :
    ebind (.error e) f = .error e := rfl

theorem pydiv_of_ne {x y : ℚ} (h : y ≠ 0) : pydiv x y = .ok (x / y) := by
  simp [pydiv, h]

theorem pydiv_of_eq {x y : ℚ} (h : y = 0) :
    pydiv x y = .error .zeroDivision := by
  simp [pydiv, h]

theorem pylog_of_pos (m : MathLib) {x : ℚ} (h : 0 < x) :
    pylog m x = .ok (m.log x) := by
  simp [pylog, not_le.mpr h]

theorem pylog_of_nonpos (m : MathLib) {x : ℚ} (h : x ≤ 0) :
    pylog m x = .error .mathDomain := by
  simp [pylog, h]

theorem pysqrt_of_nonneg (m : MathLib) {x : ℚ} (h : 0 ≤ x) :
    pysqrt m x = .ok (m.sqrt x) := by
  simp [pysqrt, not_lt.mpr h]

theorem pysqrt_of_neg (m : MathLib) {x : ℚ} (h : x < 0) :
    pysqrt m x = .error .mathDomain := by
  simp [pysqrt, h]

/-- A day count divided by 365 is non-positive exactly when the count is. -/
theorem yearFrac_nonpos_iff (d : Int) : ((d : ℚ) / 365 ≤ 0) ↔ d ≤ 0 := by
  rw [div_nonpos_iff]
  constructor
  · rintro (⟨_, h2⟩ | ⟨h1, _⟩)
    · norm_num at h2
    · exact_mod_cast h1
  · intro h
    exact Or.inr ⟨by exact_mod_cast h, by norm_num⟩

/-- The converter, rephrased with the sign test on the integral day count
rather than on the year fraction. -/
theorem timeToExpiration_eq (e n : Int) :
    timeToExpiration e n =
      if Int.fdiv (e - n) 86400 ≤ 0 then Except.error PyError.expiredInvalid
      else Except.ok ((Int.fdiv (e - n) 86400 : ℚ) / 365) := by
  unfold timeToExpiration
  by_cases h : Int.fdiv (e - n) 86400 ≤ 0
  · rw [if_pos ((yearFrac_nonpos_iff _).mpr h), if_pos h]
  · rw [if_neg fun hc => h ((yearFrac_nonpos_iff _).mp hc), if_neg h]

/-- Every outcome of the Black-76 block: a value, a raw division-by-zero, a
raw math domain error, or the unknown-option-type failure. -/
theorem black76_cases (m : MathLib) (t : String) (F K T r sigma : ℚ) :
    (∃ v, black76 m t F K T r sigma = .ok v)
    ∨ black76 m t F K T r sigma = .error .zeroDivision
    ∨ black76 m t F K T r sigma = .error .mathDomain
    ∨ black76 m t F K T r sigma = .error (.unknownOptionType t) := by
  by_cases hK : K = 0
  · exact Or.inr (Or.inl (by simp only [black76, pydiv_of_eq hK, ebind_error]))
  by_cases hFK : F / K ≤ 0
  · exact Or.inr (Or.inr (Or.inl (by
      simp only [black76, pydiv_of_ne hK, ebind_ok, pylog_of_nonpos m hFK,
        ebind_error])))
  by_cases hT : T < 0
  · exact Or.inr (Or.inr (Or.inl (by
      simp only [black76, pydiv_of_ne hK, ebind_ok,
        pylog_of_pos m (lt_of_not_le hFK), pysqrt_of_neg m hT, ebind_error])))
  by_cases hden : sigma * m.sqrt T = 0
  · exact Or.inr (Or.inl (by
      simp only [black76, pydiv_of_ne hK, ebind_ok,
        pylog_of_pos m (lt_of_not_le hFK), pysqrt_of_nonneg m (not_lt.mp hT),
        pydiv_of_eq hden, ebind_error]))
  · simp only [black76, pydiv_of_ne hK, ebind_ok,
      pylog_of_pos m (lt_of_not_le hFK), pysqrt_of_nonneg m (not_lt.mp hT),
      pydiv_of_ne hden]
    by_cases ht1 : t = "CALL"
    · rw [if_pos ht1]
      exact Or.inl ⟨_, rfl⟩
    by_cases ht2 : t = "PUT"
    · rw [if_neg ht1, if_pos ht2]
      exact Or.inl ⟨_, rfl⟩
    · rw [if_neg ht1, if_neg ht2]
      exact Or.inr (Or.inr (Or.inr rfl))

/-- Every outcome of the time-to-expiration property: a year fraction, the
expired failure, or the unknown-underlying failure. -/
theorem time_to_expiration_cases (holidays : List Int) (name : String)
    (dm : Date) (now : Int) :
    (∃ t, time_to_expiration holidays name dm now = .ok t)
    ∨ time_to_expiration holidays name dm now = .error .expiredInvalid
    ∨ time_to_expiration holidays name dm now = .error (.unknownUnderlying name) := by
  unfold time_to_expiration
  by_cases h1 : name = "Crude Oil"
  · rw [if_pos h1, timeToExpiration_eq]
    split_ifs <;> simp
  by_cases h2 : name = "Natural Gas"
  · rw [if_neg h1, if_pos h2, timeToExpiration_eq]
    split_ifs <;> simp
  · rw [if_neg h1, if_neg h2]
    simp

/-- Folding the maximum-settlement selection from a seed quote yields a quote
that is the seed or an element of the list, with settlement date at least
that of every candidate. -/
theorem foldl_pickLatest_some (l : List Quote) (b : Quote) :
    ∃ q, l.foldl pickLatest (some b) = some q
      ∧ (q = b ∨ q ∈ l)
      ∧ b.settlement_date ≤ q.settlement_date
      ∧ ∀ x ∈ l, x.settlement_date ≤ q.settlement_date := by
  induction l generalizing b with
  | nil => exact ⟨b, rfl, Or.inl rfl, le_refl _, by simp⟩
  | cons h t ih =>
    by_cases hc : b.settlement_date < h.settlement_date
    · obtain ⟨q, hq, hmem, hle, hall⟩ := ih h
      refine ⟨q, ?_, ?_, le_trans (le_of_lt hc) hle, ?_⟩
      · simpa [pickLatest, hc] using hq
      · rcases hmem with rfl | hm
        · exact Or.inr (List.mem_cons_self _ _)
        · exact Or.inr (List.mem_cons_of_mem _ hm)
      · intro x hx
        rcases List.mem_cons.mp hx with rfl | hx2
        · exact hle
        · exact hall x hx2
    · obtain ⟨q, hq, hmem, hle, hall⟩ := ih b
      refine ⟨q, ?_, ?_, hle, ?_⟩
      · simpa [pickLatest, hc] using hq
      · rcases hmem with rfl | hm
        · exact Or.inl rfl
        · exact Or.inr (List.mem_cons_of_mem _ hm)
      · intro x hx
        rcases List.mem_cons.mp hx with rfl | hx2
        · exact le_trans (not_lt.mp hc) hle
        · exact hall x hx2

/-- The lookup returns nothing exactly when no stored quote matches. -/
theorem latestQuote_eq_none_iff (store : List Quote) (name : String) (dm : Date) :
    latestQuote store name dm = none ↔
      ∀ q ∈ store, quoteMatches name dm q = false := by
  unfold latestQuote
  rcases hf : store.filter (quoteMatches name dm) with _ | ⟨b, t⟩
  · simp only [List.foldl_nil, true_iff]
    intro q hq
    by_contra hne
    have hmem : q ∈ store.filter (quoteMatches name dm) :=
      List.mem_filter.mpr ⟨hq, by simpa using hne⟩
    rw [hf] at hmem
    simp at hmem
  · constructor
    · intro hfold
      obtain ⟨q, hq, _, _, _⟩ := foldl_pickLatest_some t b
      simp only [List.foldl_cons, pickLatest] at hfold
      rw [hfold] at hq
      exact absurd hq (by simp)
    · intro hall
      have hb : b ∈ store.filter (quoteMatches name dm) := by
        rw [hf]
        exact List.mem_cons_self _ _
      have hm := List.mem_filter.mp hb
      rw [hall b hm.1] at hm
      exact absurd hm.2 (by simp)

/-- A returned quote matches and carries a maximal settlement date among the
matching quotes of the store. -/
theorem latestQuote_some (store : List Quote) (name : String) (dm : Date)
    (q : Quote) (hq : latestQuote store name dm = some q) :
    quoteMatches name dm q = true
    ∧ ∀ x ∈ store, quoteMatches name dm x = true →
        x.settlement_date ≤ q.settlement_date := by
  unfold latestQuote at hq
  cases hf : store.filter (quoteMatches name dm) with
  | nil =>
    rw [hf] at hq
    simp at hq
  | cons b t =>
    rw [hf] at hq
    simp only [List.foldl_cons, pickLatest] at hq
    obtain ⟨q2, hq2, hmem, hle, hall⟩ := foldl_pickLatest_some t b
    rw [hq2] at hq
    have heq : q2 = q := by simpa using hq
    rw [heq] at hmem hle hall
    have hqfilter : q ∈ store.filter (quoteMatches name dm) := by
      rw [hf]
      rcases hmem with rfl | hm
      · exact List.mem_cons_self _ _
      · exact List.mem_cons_of_mem _ hm
    refine ⟨(List.mem_filter.mp hqfilter).2, ?_⟩
    intro x hx hmx
    have hxf : x ∈ store.filter (quoteMatches name dm) :=
      List.mem_filter.mpr ⟨hx, hmx⟩
    rw [hf] at hxf
    rcases List.mem_cons.mp hxf with rfl | hx2
    · exact hle
    · exact hall x hx2

/-- Claim C1, counterexample. For delivery month January 2025 the claim
predicts expiry 2024-12-23 when neither the target 2024-12-25 nor the
predicted expiry is a holiday or weekend. With an empty holiday set both
days are plain weekdays, yet `calculate_oil_expiry` returns 2024-12-20 (the
third business day before Wednesday the 25th), not 2024-12-23. -/
theorem oil_expiry_jan2025_counterexample :
    isBusDay [] (daysFromCivil 2024 12 25) = true
    ∧ isBusDay [] (daysFromCivil 2024 12 23) = true
    ∧ calculate_oil_expiry [] ⟨2025, 1, 1⟩ ≠ daysFromCivil 2024 12 23
    ∧ calculate_oil_expiry [] ⟨2025, 1, 1⟩ = daysFromCivil 2024 12 20 := by
  refine ⟨by decide, by decide, by decide, by decide⟩

/-- Claim C1 (amended): for every delivery month, `calculate_oil_expiry`
targets the 25th calendar day of the month preceding the delivery month —
with an explicit year rollover so that a January delivery month of year Y
uses December of year Y-1 — and returns that target shifted 3 business days
backward; in particular, delivery month January 2025 yields target
2024-12-25 and, with no holiday configured, expiry 2024-12-20. -/
theorem oil_expiry_rule :
    (∀ (holidays : List Int) (y d : Int),
      calculate_oil_expiry holidays ⟨y, 1, d⟩ =
        busdayOffsetBack holidays (daysFromCivil (y - 1) 12 25) 3)
    ∧ (∀ (holidays : List Int) (y m d : Int), m ≠ 1 →
      calculate_oil_expiry holidays ⟨y, m, d⟩ =
        busdayOffsetBack holidays (daysFromCivil y (m - 1) 25) 3)
    ∧ calculate_oil_expiry [] ⟨2025, 1, 1⟩ = daysFromCivil 2024 12 20 := by
  refine ⟨fun holidays y d => ?_, fun holidays y m d hm => ?_, by decide⟩
  · simp [calculate_oil_expiry]
  · simp [calculate_oil_expiry, hm]

/-- Claim C1 witness: the non-January branch of the rule at March 2026. -/
theorem oil_expiry_rule_witness :
    calculate_oil_expiry [] ⟨2026, 3, 1⟩ =
      busdayOffsetBack [] (daysFromCivil 2026 (3 - 1) 25) 3 :=
  oil_expiry_rule.2.1 [] 2026 3 1 (by decide)

/-- Claim C4, counterexample. For delivery month March 2025 the claim
predicts expiry 2025-02-25, a Tuesday, assuming no holiday. With an empty
holiday set `calculate_gas_expiry` returns 2025-02-26 (a Wednesday): the
target 2025-03-01 is a Saturday, the backward shift rolls it forward to
Monday 2025-03-03 and steps back three business days. -/
theorem gas_expiry_mar2025_counterexample :
    isBusDay [] (daysFromCivil 2025 2 25) = true
    ∧ calculate_gas_expiry [] ⟨2025, 3, 1⟩ ≠ daysFromCivil 2025 2 25
    ∧ calculate_gas_expiry [] ⟨2025, 3, 1⟩ = daysFromCivil 2025 2 26
    ∧ weekday (daysFromCivil 2025 2 26) = 2 := by
  refine ⟨by decide, by decide, by decide, by decide⟩

/-- Claim C4 (amended): for every delivery month, `calculate_gas_expiry`
targets the 1st calendar day of the delivery month and returns that target
shifted 3 business days backward; in particular, delivery month March 2025
yields target 2025-03-01 and, with no holiday configured, expiry 2025-02-26,
a Wednesday. -/
theorem gas_expiry_rule :
    (∀ (holidays : List Int) (dm : Date),
      calculate_gas_expiry holidays dm =
        busdayOffsetBack holidays (daysFromCivil dm.year dm.month 1) 3)
    ∧ calculate_gas_expiry [] ⟨2025, 3, 1⟩ = daysFromCivil 2025 2 26
    ∧ weekday (calculate_gas_expiry [] ⟨2025, 3, 1⟩) = 2 :=
  ⟨fun _ _ => rfl, by decide, by decide⟩

/-- Claim C2: the converter computes `(expiry - now).days / 365.0`, fails
with the expired failure exactly when that value is non-positive, returns it
unchanged otherwise; expiry equal to now fails, and a one-day-future expiry
returns 1/365. -/
theorem timeToExpiration_spec :
    ∀ e n : Int,
      (timeToExpiration e n = .error .expiredInvalid ↔
        ((Int.fdiv (e - n) 86400 : ℚ) / 365) ≤ 0)
      ∧ (∀ t : ℚ, timeToExpiration e n = .ok t →
          t = (Int.fdiv (e - n) 86400 : ℚ) / 365)
      ∧ timeToExpiration n n = .error .expiredInvalid
      ∧ timeToExpiration (n + 86400) n = .ok (1 / 365) := by
  intro e n
  refine ⟨?_, ?_, ?_, ?_⟩
  · rw [timeToExpiration_eq, yearFrac_nonpos_iff]
    by_cases h : Int.fdiv (e - n) 86400 ≤ 0
    · simp [h]
    · simp [h]
  · intro t ht
    rw [timeToExpiration_eq] at ht
    by_cases h : Int.fdiv (e - n) 86400 ≤ 0
    · rw [if_pos h] at ht
      exact absurd ht (by simp)
    · rw [if_neg h] at ht
      simpa using ht.symm
  · rw [timeToExpiration_eq, if_pos (by simp)]
  · rw [timeToExpiration_eq]
    have h : Int.fdiv (n + 86400 - n) 86400 = 1 := by
      have he : n + 86400 - n = 86400 := by ring
      rw [he]
      decide
    rw [h, if_neg (by norm_num)]
    norm_num

/-- Claim C2 witness: the converter at concrete timestamps, with the iff
direction discharged at a past expiry. -/
theorem timeToExpiration_spec_witness :
    timeToExpiration 0 5 = .error .expiredInvalid
    ∧ timeToExpiration 0 0 = .error .expiredInvalid := by
  constructor
  · refine (timeToExpiration_spec 0 5).1.mpr ?_
    have h : Int.fdiv (0 - 5) 86400 = -1 := by decide
    rw [h]
    norm_num
  · exact (timeToExpiration_spec 0 0).2.2.1

/-- Claim C10: an expiry timestamp strictly after `now` but less than 24
hours after it is rejected with the expired failure, because the whole-day
component of the difference truncates to zero and the non-positivity check
fires. -/
theorem same_day_expiry_rejected :
    ∀ e n : Int, n < e → e < n + 86400 →
      timeToExpiration e n = .error .expiredInvalid := by
  intro e n h1 h2
  rw [timeToExpiration_eq, if_pos]
  have h0 : Int.fdiv (e - n) 86400 = 0 := by
    rw [Int.fdiv_eq_ediv _ (by norm_num)]
    exact Int.ediv_eq_zero_of_lt (by omega) (by omega)
  rw [h0]

/-- Claim C10 witness: an expiry one hour in the future is rejected. -/
theorem same_day_expiry_rejected_witness :
    timeToExpiration 3600 0 = .error .expiredInvalid :=
  same_day_expiry_rejected 3600 0 (by decide) (by decide)

/-- Claim C6: a product name outside the closed set of Crude Oil and
Natural Gas makes the dispatch fail with the unknown-underlying failure, and
a name inside the set never produces that failure. -/
theorem unsupported_instrument :
    ∀ (holidays : List Int) (dm : Date) (now : Int) (name : String),
      (name ≠ "Crude Oil" → name ≠ "Natural Gas" →
        time_to_expiration holidays name dm now =
          .error (.unknownUnderlying name))
      ∧ (name = "Crude Oil" ∨ name = "Natural Gas" →
        ∀ s, time_to_expiration holidays name dm now ≠
          .error (.unknownUnderlying s)) := by
  intro holidays dm now name
  constructor
  · intro h1 h2
    simp [time_to_expiration, h1, h2]
  · intro hin s
    rcases time_to_expiration_cases holidays name dm now with ⟨t, ht⟩ | ht | ht
    · simp [ht]
    · simp [ht]
    · rcases hin with rfl | rfl <;> simp [time_to_expiration, timeToExpiration_eq] at ht
      · exact absurd ht (by split_ifs <;> simp)
      · exact absurd ht (by split_ifs <;> simp)

/-- Claim C6 witness: a rejected name and an accepted name. -/
theorem unsupported_instrument_witness :
    time_to_expiration [] "Brent" ⟨2025, 1, 1⟩ 0 =
      .error (.unknownUnderlying "Brent")
    ∧ time_to_expiration [] "Crude Oil" ⟨2025, 1, 1⟩ 0 ≠
      .error (.unknownUnderlying "Crude Oil") := by
  constructor
  · exact (unsupported_instrument [] ⟨2025, 1, 1⟩ 0 "Brent").1
      (by decide) (by decide)
  · exact (unsupported_instrument [] ⟨2025, 1, 1⟩ 0 "Crude Oil").2
      (Or.inl rfl) "Crude Oil"

/-- When a quote is found and the year fraction is produced, the price is the
Black-76 value at the forward of the quote and the hard-coded rate 0.05 and
volatility 0.20. -/
theorem calculate_option_price_some (m : MathLib) (holidays : List Int)
    (store : List Quote) (opt : OptionSpec) (now : Int) (md : Quote)
    (hq : latestQuote store opt.underlying_future opt.delivery_month = some md)
    (T : ℚ)
    (ht : time_to_expiration holidays opt.underlying_future opt.delivery_month
      now = .ok T) :
    calculate_option_price m holidays store opt now =
      black76 m opt.option_type md.futures_price opt.strike_price T
        (1/20) (1/5) := by
  unfold calculate_option_price
  rw [hq, ht]

/-- Without a matching quote the orchestrator fails with no-market-data. -/
theorem calculate_option_price_none (m : MathLib) (holidays : List Int)
    (store : List Quote) (opt : OptionSpec) (now : Int)
    (hq : latestQuote store opt.underlying_future opt.delivery_month = none) :
    calculate_option_price m holidays store opt now =
      .error .noMarketData := by
  unfold calculate_option_price
  rw [hq]

/-- A failure of the time-to-expiration property propagates unchanged. -/
theorem calculate_option_price_error (m : MathLib) (holidays : List Int)
    (store : List Quote) (opt : OptionSpec) (now : Int) (md : Quote)
    (hq : latestQuote store opt.underlying_future opt.delivery_month = some md)
    (e : PyError)
    (ht : time_to_expiration holidays opt.underlying_future opt.delivery_month
      now = .error e) :
    calculate_option_price m holidays store opt now = .error e := by
  unfold calculate_option_price
  rw [hq, ht]

/-- The spec-modelled orchestrator, after a successful lookup. -/
theorem priceOption_conf_some (m : MathLib) (r sigma : ℚ)
    (holidays : List Int) (store : List Quote) (opt : OptionSpec) (now : Int)
    (md : Quote)
    (hq : latestQuote store opt.underlying_future opt.delivery_month = some md)
    (T : ℚ)
    (ht : time_to_expiration holidays opt.underlying_future opt.delivery_month
      now = .ok T) :
    priceOption_conf m r sigma holidays store opt now =
      black76 m opt.option_type md.futures_price opt.strike_price T r sigma := by
  unfold priceOption_conf
  rw [hq, ht]
  rfl

/-- The converter with the gas rule at a clock sample one 365-day year before
the March 2025 expiry day 2025-02-26 (day number 20145). -/
theorem gas_tte_ok :
    time_to_expiration [] "Natural Gas" ⟨2025, 3, 1⟩ (86400 * 19780) =
      .ok 1 := by
  unfold time_to_expiration
  rw [if_neg (by decide), if_pos (by decide), timeToExpiration_eq]
  have h : Int.fdiv (86400 * calculate_gas_expiry [] ⟨2025, 3, 1⟩ -
      86400 * 19780) 86400 = 365 := by decide
  rw [h, if_neg (by norm_num)]
  norm_num

/-- The converter with the gas rule at a clock sample on the expiry day. -/
theorem gas_tte_expired :
    time_to_expiration [] "Natural Gas" ⟨2025, 3, 1⟩ (86400 * 20145) =
      .error .expiredInvalid := by
  unfold time_to_expiration
  rw [if_neg (by decide), if_pos (by decide), timeToExpiration_eq,
    if_pos (by decide)]

/-- Claim C9, counterexample. The converter reads the wall clock internally:
two invocations on an option with identical stored fields (Natural Gas,
delivery March 2025) return different results when the clock sample differs
— a year fraction of 1 at one sample, the expired failure at a later one. -/
theorem converter_wall_clock_counterexample :
    time_to_expiration [] "Natural Gas" ⟨2025, 3, 1⟩ (86400 * 19780) = .ok 1
    ∧ time_to_expiration [] "Natural Gas" ⟨2025, 3, 1⟩ (86400 * 20145) =
        .error .expiredInvalid
    ∧ (Except.ok (1 : ℚ) : Except PyError ℚ) ≠ .error .expiredInvalid :=
  ⟨gas_tte_ok, gas_tte_expired, by simp⟩

/-- Claim C9 (amended): the calendar, the expiry rules and the pricer are
pure functions of their explicit inputs, but the converter also depends on
the internal wall-clock sample; once that sample is treated as an explicit
input the converter is deterministic, and its result depends on the sample
only through the floor-truncated whole-day difference to the expiry
timestamp of the dispatched rule: two distinct clock samples with the same
whole-day difference to the oil (respectively gas) expiry timestamp give
identical results, and for an unsupported name the result never depends on
the sample at all. -/
theorem converter_determinism :
    ∀ (holidays : List Int) (dm : Date) (n1 n2 : Int),
      (Int.fdiv (86400 * calculate_oil_expiry holidays dm - n1) 86400 =
          Int.fdiv (86400 * calculate_oil_expiry holidays dm - n2) 86400 →
        time_to_expiration holidays "Crude Oil" dm n1 =
          time_to_expiration holidays "Crude Oil" dm n2)
      ∧ (Int.fdiv (86400 * calculate_gas_expiry holidays dm - n1) 86400 =
          Int.fdiv (86400 * calculate_gas_expiry holidays dm - n2) 86400 →
        time_to_expiration holidays "Natural Gas" dm n1 =
          time_to_expiration holidays "Natural Gas" dm n2)
      ∧ (∀ name : String, name ≠ "Crude Oil" → name ≠ "Natural Gas" →
        time_to_expiration holidays name dm n1 =
          time_to_expiration holidays name dm n2) := by
  intro holidays dm n1 n2
  refine ⟨?_, ?_, ?_⟩
  · intro h
    unfold time_to_expiration
    rw [if_pos rfl, if_pos rfl, timeToExpiration_eq, timeToExpiration_eq, h]
  · intro h
    unfold time_to_expiration
    rw [if_neg (show ¬("Natural Gas" = "Crude Oil") by decide),
      if_neg (show ¬("Natural Gas" = "Crude Oil") by decide),
      if_pos rfl, if_pos rfl, timeToExpiration_eq, timeToExpiration_eq, h]
  · intro name h1 h2
    unfold time_to_expiration
    rw [if_neg h1, if_neg h1, if_neg h2, if_neg h2]

/-- Claim C9 witness: all three determinism clauses at distinct concrete
clock samples — midnight of 1970-01-01 against samples 50000 seconds
earlier, 1000 seconds earlier, and 12345 seconds later — whose whole-day
differences to the respective expiry timestamps coincide. -/
theorem converter_determinism_witness :
    (time_to_expiration [] "Crude Oil" ⟨2025, 3, 1⟩ 0 =
      time_to_expiration [] "Crude Oil" ⟨2025, 3, 1⟩ (-50000))
    ∧ (time_to_expiration [] "Natural Gas" ⟨2025, 3, 1⟩ 0 =
      time_to_expiration [] "Natural Gas" ⟨2025, 3, 1⟩ (-1000))
    ∧ (time_to_expiration [] "Brent" ⟨2025, 3, 1⟩ 0 =
      time_to_expiration [] "Brent" ⟨2025, 3, 1⟩ 12345) :=
  ⟨(converter_determinism [] ⟨2025, 3, 1⟩ 0 (-50000)).1 (by decide),
   (converter_determinism [] ⟨2025, 3, 1⟩ 0 (-1000)).2.1 (by decide),
   (converter_determinism [] ⟨2025, 3, 1⟩ 0 12345).2.2 "Brent"
     (by decide) (by decide)⟩

/-- Claim C3, counterexample. With sigma = 0 the pricer propagates the raw
division-by-zero exception from the d1 formula; no typed invalid-input
failure is raised anywhere in the source. -/
theorem black76_sigma_zero_counterexample :
    black76 mathId "CALL" 80 80 (1/4) (1/20) 0 = .error .zeroDivision := by
  simp only [black76, pydiv_of_ne (show (80 : ℚ) ≠ 0 by norm_num), ebind_ok,
    pylog_of_pos mathId (show (0 : ℚ) < 80 / 80 by norm_num),
    pysqrt_of_nonneg mathId (show (0 : ℚ) ≤ 1/4 by norm_num),
    pydiv_of_eq (show (0 : ℚ) * mathId.sqrt (1/4) = 0 from zero_mul _),
    ebind_error]

/-- Claim C3 (amended): whenever sigma = 0, T ≤ 0, K = 0, or exactly one of
F and K is outside the positive range (F ≤ 0 with K positive, or K negative
with F positive) reaches the formula, the pricer raises a raw
division-by-zero or math-domain exception — there is no typed
invalid-pricing-input failure — and never returns a numeric value. -/
theorem black76_invalid_inputs :
    ∀ (m : MathLib), m.sqrt 0 = 0 →
    ∀ (optionType : String) (F K T r sigma : ℚ),
      sigma = 0 ∨ T ≤ 0 ∨ K = 0 ∨ (F ≤ 0 ∧ 0 < K) ∨ (0 < F ∧ K < 0) →
      black76 m optionType F K T r sigma = .error .zeroDivision
      ∨ black76 m optionType F K T r sigma = .error .mathDomain := by
  intro m hm0 optionType F K T r sigma hbad
  by_cases hK : K = 0
  · exact Or.inl (by simp only [black76, pydiv_of_eq hK, ebind_error])
  by_cases hFK : F / K ≤ 0
  · exact Or.inr (by
      simp only [black76, pydiv_of_ne hK, ebind_ok, pylog_of_nonpos m hFK,
        ebind_error])
  by_cases hT : T < 0
  · exact Or.inr (by
      simp only [black76, pydiv_of_ne hK, ebind_ok,
        pylog_of_pos m (lt_of_not_le hFK), pysqrt_of_neg m hT, ebind_error])
  have hden : sigma * m.sqrt T = 0 := by
    rcases hbad with hs | hT0 | hK0 | ⟨hF, hKpos⟩ | ⟨hFpos, hKneg⟩
    · rw [hs, zero_mul]
    · have hTz : T = 0 := le_antisymm hT0 (not_lt.mp hT)
      rw [hTz, hm0, mul_zero]
    · exact absurd hK0 hK
    · exact absurd (div_nonpos_iff.mpr (Or.inr ⟨hF, le_of_lt hKpos⟩)) hFK
    · exact absurd (div_nonpos_iff.mpr (Or.inl ⟨le_of_lt hFpos, le_of_lt hKneg⟩))
        hFK
  exact Or.inl (by
    simp only [black76, pydiv_of_ne hK, ebind_ok,
      pylog_of_pos m (lt_of_not_le hFK), pysqrt_of_nonneg m (not_lt.mp hT),
      pydiv_of_eq hden, ebind_error])

/-- Claim C3 witness: the invalid-input theorem at sigma = 0. -/
theorem black76_invalid_inputs_witness :
    black76 mathId "PUT" 80 80 (1/4) (1/20) 0 = .error .zeroDivision
    ∨ black76 mathId "PUT" 80 80 (1/4) (1/20) 0 = .error .mathDomain :=
  black76_invalid_inputs mathId rfl "PUT" 80 80 (1/4) (1/20) 0 (Or.inl rfl)

/-- Claim C7: with F = 80, K = 80, T = 0.25, r = 0.05, sigma = 0.20, the
call and put prices satisfy put-call parity — their difference equals
F e^(-rT) - K e^(-rT) to within 1e-6 — for every cumulative distribution
function with the symmetry of the standard normal one and a square root
that does not vanish at T. -/
theorem black76_put_call_parity :
    ∀ (m : MathLib),
      (∀ x : ℚ, m.normCdf x + m.normCdf (-x) = 1) →
      m.sqrt (1/4) ≠ 0 →
      ∃ c p : ℚ,
        black76 m "CALL" 80 80 (1/4) (1/20) (1/5) = .ok c
        ∧ black76 m "PUT" 80 80 (1/4) (1/20) (1/5) = .ok p
        ∧ |c - p - (80 * m.exp (-(1/20) * (1/4)) -
            80 * m.exp (-(1/20) * (1/4)))| ≤ 1 / 1000000 := by
  intro m hcdf hsq
  have hden : (1/5 : ℚ) * m.sqrt (1/4) ≠ 0 := mul_ne_zero (by norm_num) hsq
  simp only [black76, pydiv_of_ne (show (80 : ℚ) ≠ 0 by norm_num), ebind_ok,
    pylog_of_pos m (show (0 : ℚ) < 80 / 80 by norm_num),
    pysqrt_of_nonneg m (show (0 : ℚ) ≤ 1/4 by norm_num),
    pydiv_of_ne hden]
  rw [if_pos trivial, if_neg (show ¬("PUT" = "CALL") by decide),
    if_pos trivial]
  refine ⟨_, _, rfl, rfl, ?_⟩
  have habs : ∀ y : ℚ, y = 0 → |y| ≤ 1 / 1000000 := by
    intro y hy
    rw [hy]
    norm_num
  apply habs
  have h1 := hcdf ((m.log (80 / 80) + 1/2 * (1/5) ^ 2 * (1/4)) /
    (1/5 * m.sqrt (1/4)))
  have h2 := hcdf ((m.log (80 / 80) + 1/2 * (1/5) ^ 2 * (1/4)) /
    (1/5 * m.sqrt (1/4)) - 1/5 * m.sqrt (1/4))
  linear_combination (80 * m.exp (-(1/20) * (1/4))) * h1 -
    (80 * m.exp (-(1/20) * (1/4))) * h2

/-- Claim C7 witness: the parity statement at a concrete symmetric CDF. -/
theorem black76_put_call_parity_witness :
    ∃ c p : ℚ,
      black76 mathHalf "CALL" 80 80 (1/4) (1/20) (1/5) = .ok c
      ∧ black76 mathHalf "PUT" 80 80 (1/4) (1/20) (1/5) = .ok p
      ∧ |c - p - (80 * mathHalf.exp (-(1/20) * (1/4)) -
          80 * mathHalf.exp (-(1/20) * (1/4)))| ≤ 1 / 1000000 :=
  black76_put_call_parity mathHalf (fun x => by norm_num [mathHalf])
    (by norm_num [mathHalf])

/-- Claim C5: the orchestrator fails with the no-market-data failure exactly
when no stored quote matches the underlying name and delivery
month, and when a quote is returned it matches, its settlement date is
maximal among the matches, and its futures price is the forward handed to
the pricer. -/
theorem priceOption_market_data :
    ∀ (m : MathLib) (holidays : List Int) (store : List Quote)
      (opt : OptionSpec) (now : Int),
      (calculate_option_price m holidays store opt now =
          .error .noMarketData ↔
        ∀ q ∈ store,
          quoteMatches opt.underlying_future opt.delivery_month q = false)
      ∧ ∀ q, latestQuote store opt.underlying_future opt.delivery_month =
            some q →
          quoteMatches opt.underlying_future opt.delivery_month q = true
          ∧ (∀ x ∈ store,
              quoteMatches opt.underlying_future opt.delivery_month x = true →
              x.settlement_date ≤ q.settlement_date)
          ∧ calculate_option_price m holidays store opt now =
              ebind (time_to_expiration holidays opt.underlying_future
                  opt.delivery_month now)
                (fun T => black76 m opt.option_type q.futures_price
                  opt.strike_price T (1/20) (1/5)) := by
  intro m holidays store opt now
  constructor
  · rw [← latestQuote_eq_none_iff store opt.underlying_future
      opt.delivery_month]
    constructor
    · intro hcp
      cases hq : latestQuote store opt.underlying_future
          opt.delivery_month with
      | none => rfl
      | some md =>
        exfalso
        rcases time_to_expiration_cases holidays opt.underlying_future
            opt.delivery_month now with ⟨t, ht⟩ | ht | ht
        · rw [calculate_option_price_some m holidays store opt now md hq t ht]
            at hcp
          rcases black76_cases m opt.option_type md.futures_price
              opt.strike_price t (1/20) (1/5) with ⟨v, hb⟩ | hb | hb | hb <;>
            rw [hb] at hcp <;> exact absurd hcp (by simp)
        · rw [calculate_option_price_error m holidays store opt now md hq _
            ht] at hcp
          exact absurd hcp (by simp)
        · rw [calculate_option_price_error m holidays store opt now md hq _
            ht] at hcp
          exact absurd hcp (by simp)
    · intro hnone
      exact calculate_option_price_none m holidays store opt now hnone
  · intro q hq
    obtain ⟨hmatch, hmax⟩ :=
      latestQuote_some store opt.underlying_future opt.delivery_month q hq
    refine ⟨hmatch, hmax, ?_⟩
    cases ht : time_to_expiration holidays opt.underlying_future
        opt.delivery_month now with
    | error e =>
      rw [calculate_option_price_error m holidays store opt now q hq e ht,
        ebind_error]
    | ok T =>
      rw [calculate_option_price_some m holidays store opt now q hq T ht,
        ebind_ok]

/-- Claim C5 witness: an empty store fails with no-market-data, and with two
matching quotes the later settlement is selected and priced. -/
theorem priceOption_market_data_witness :
    calculate_option_price mathHalf [] [] optW 0 = .error .noMarketData
    ∧ quoteMatches optW.underlying_future optW.delivery_month qW2 = true
    ∧ calculate_option_price mathHalf [] [qW1, qW2] optW (86400 * 19780) =
        ebind (time_to_expiration [] optW.underlying_future
            optW.delivery_month (86400 * 19780))
          (fun T => black76 mathHalf optW.option_type qW2.futures_price
            optW.strike_price T (1/20) (1/5)) := by
  refine ⟨?_, ?_, ?_⟩
  · exact (priceOption_market_data mathHalf [] [] optW 0).1.mpr (by simp)
  · exact ((priceOption_market_data mathHalf [] [qW1, qW2] optW
      (86400 * 19780)).2 qW2 rfl).1
  · exact ((priceOption_market_data mathHalf [] [qW1, qW2] optW
      (86400 * 19780)).2 qW2 rfl).2.2

/-- Claim C8, counterexample. The rate and volatility are constants inside
`calculate_option_price`: on a concrete request it returns the Black-76
price at r = 0.05, while the configurable orchestrator of the spec invoked with
r = 0.10 on the same request returns a different price — so no supplied
value can influence the result of the source. -/
theorem hardcoded_rate_vol_counterexample :
    calculate_option_price mathHalf [] [qW1] optW (86400 * 19780) =
      .ok (-(1/2))
    ∧ priceOption_conf mathHalf (1/10) (1/5) [] [qW1] optW (86400 * 19780) =
      .ok (-1)
    ∧ (Except.ok (-(1/2)) : Except PyError ℚ) ≠ .ok (-1) := by
  have hlq : latestQuote [qW1] optW.underlying_future optW.delivery_month =
      some qW1 := rfl
  have htte : time_to_expiration [] optW.underlying_future optW.delivery_month
      (86400 * 19780) = .ok 1 := gas_tte_ok
  have hball : ∀ r : ℚ, black76 mathHalf "CALL" 100 80 1 r (1/5) =
      .ok (r * -10) := by
    intro r
    simp only [black76, pydiv_of_ne (show (80 : ℚ) ≠ 0 by norm_num), ebind_ok,
      pylog_of_pos mathHalf (show (0 : ℚ) < 100 / 80 by norm_num),
      pysqrt_of_nonneg mathHalf (show (0 : ℚ) ≤ 1 by norm_num),
      pydiv_of_ne (show (1/5 : ℚ) * mathHalf.sqrt 1 ≠ 0 by
        norm_num [mathHalf])]
    rw [if_pos trivial]
    show Except.ok ((-r * 1) * (100 * (1/2 : ℚ) - 80 * (1/2))) =
      .ok (r * -10)
    exact congrArg Except.ok (by ring)
  refine ⟨?_, ?_, ?_⟩
  · rw [calculate_option_price_some mathHalf [] [qW1] optW (86400 * 19780)
      qW1 hlq 1 htte]
    have := hball (1/20)
    rw [show black76 mathHalf optW.option_type qW1.futures_price
        optW.strike_price 1 (1/20) (1/5) =
      black76 mathHalf "CALL" 100 80 1 (1/20) (1/5) from rfl, this]
    norm_num
  · rw [priceOption_conf_some mathHalf (1/10) (1/5) [] [qW1] optW
      (86400 * 19780) qW1 hlq 1 htte]
    have := hball (1/10)
    rw [show black76 mathHalf optW.option_type qW1.futures_price
        optW.strike_price 1 (1/10) (1/5) =
      black76 mathHalf "CALL" 100 80 1 (1/10) (1/5) from rfl, this]
    norm_num
  · intro hcontra
    exact absurd (Except.ok.inj hcontra) (by norm_num)

/-- Claim C8 (amended): the risk-free rate and the volatility are fixed
constants 0.05 and 0.20 inside the orchestrator — the source behaves exactly
as the configurable orchestrator of the spec instantiated at those defaults, for
every market store, option and clock sample. -/
theorem orchestrator_fixed_config :
    ∀ (m : MathLib) (holidays : List Int) (store : List Quote)
      (opt : OptionSpec) (now : Int),
      calculate_option_price m holidays store opt now =
        priceOption_conf m (1/20) (1/5) holidays store opt now := by
  intro m holidays store opt now
  unfold calculate_option_price priceOption_conf
  cases hq : latestQuote store opt.underlying_future opt.delivery_month with
  | none => rfl
  | some md =>
    cases ht : time_to_expiration holidays opt.underlying_future
        opt.delivery_month now with
    | error e => rfl
    | ok T => rfl

end OptionPricer
